import Mathlib

/-!
Shallow embedding of the Cloudinary upscaling service (`src/main.py`).

Conventions of the embedding:
* Python dictionaries coming from the outside world (the cloudinary
  resource lookup and the upload response) are structures with `Option`
  fields; `dict.get(key, default)` becomes `field.getD default`.
* Python floats are modelled with `ℚ`.  All constants involved are exact:
  `4.2 * 1000000` evaluates to exactly `4200000.0` in IEEE-754 binary64,
  `50 * 0.8` to exactly `40.0`, and the quotients `width / target` and
  `bytes / (1024*1024)` are never close enough to the decision thresholds
  for double rounding to flip a comparison, so the rational model agrees
  with the float semantics on every integer input.
* Strings fed to the product classifier are `List Char`; Python's
  substring operator `in` becomes the decidable relation `k <:+: t`.
  The keywords are ASCII, for which `Char.toLower` agrees with Python's
  `str.lower`.
* Exceptions raised by the external provider are `Except String`;
  the network / database environment is a record of oracles (`Env`).
* The human-readable issue strings of the validator are represented by an
  inductive type carrying the interpolated values, preserving the
  number, the order and the identity of the issues.
-/

namespace Upscale

/-- `Config.MAX_FILE_SIZE_MB = 50` (src/main.py:52). -/
def MAX_FILE_SIZE_MB : ℚ := 50

/-- `Config.MIN_DIMENSION_POSTER = 2000` (src/main.py:53). -/
def MIN_DIMENSION_POSTER : Nat := 2000

/-- `Config.MIN_DIMENSION_APPAREL = 1500` (src/main.py:54). -/
def MIN_DIMENSION_APPAREL : Nat := 1500

/-- `Config.UPSCALE_PIXEL_LIMIT = 4.2 * 1000000` (src/main.py:55).
The float product rounds to exactly `4200000.0`, and Python compares the
integer pixel count with that float exactly, so a `Nat` bound is faithful. -/
def UPSCALE_PIXEL_LIMIT : Nat := 4200000

/-- `ProductType` enum (src/main.py:58-61). -/
inductive ProductType where
  | POSTER
  | APPAREL
  | CANVAS
deriving DecidableEq, Repr

/-- `UpscalingStatus` enum (src/main.py:63-68). -/
inductive UpscalingStatus where
  | PENDING
  | PROCESSING
  | COMPLETED
  | FAILED
  | QUALITY_ISSUES
deriving DecidableEq, Repr

/-- `full_title = f"{product_title} {variant_title or ''}".lower()`
(src/main.py:116).  A missing variant title (`None` in Python) is the
`none` case; `x or ''` maps both `None` and `''` to `''`, which
`Option.getD []` reproduces. -/
def full_title (product_title : List Char) (variant_title : Option (List Char)) :
    List Char :=
  ((product_title ++ [' ']) ++ variant_title.getD []).map Char.toLower

/-- `apparel_keywords` (src/main.py:118). -/
def apparel_keywords : List (List Char) :=
  ["hoodie".toList, "t-shirt".toList, "tshirt".toList,
   "sweatshirt".toList, "shirt".toList, "apparel".toList]

/-- `canvas_keywords` (src/main.py:119). -/
def canvas_keywords : List (List Char) :=
  ["canvas".toList, "leinwand".toList]

/-- `determine_product_type` (src/main.py:114-126). -/
def determine_product_type (product_title : List Char)
    (variant_title : Option (List Char)) : ProductType :=
  let t := full_title product_title variant_title
  if apparel_keywords.any (fun k => decide (k <:+: t)) then
    ProductType.APPAREL
  else if canvas_keywords.any (fun k => decide (k <:+: t)) then
    ProductType.CANVAS
  else
    ProductType.POSTER

/-- The dictionary returned by `cloudinary.api.resource` (src/main.py:131):
every field the code reads, each possibly absent. -/
structure ResourceInfo where
  width : Option Nat
  height : Option Nat
  bytes : Option Nat
  format : Option (List Char)
  public_id : Option String
  secure_url : Option String
deriving DecidableEq, Repr

/-- The dictionary built by `get_image_info` (src/main.py:132-147). -/
structure ImageInfo where
  width : Nat
  height : Nat
  format : List Char
  bytes : Nat
  public_id : Option String
  secure_url : Option String
deriving DecidableEq, Repr

/-- `get_image_info` (src/main.py:128-147): `none` models the lookup
raising, which the function catches, returning the 1024×1024 fallback;
on success each field defaults independently. -/
def get_image_info (resource : Option ResourceInfo) : ImageInfo :=
  match resource with
  | none =>
      { width := 1024, height := 1024, format := "png".toList, bytes := 0,
        public_id := none, secure_url := none }
  | some r =>
      { width := r.width.getD 1024, height := r.height.getD 1024,
        format := r.format.getD "png".toList, bytes := r.bytes.getD 0,
        public_id := r.public_id, secure_url := r.secure_url }

/-- `UpscalingStrategy` dataclass (src/main.py:71-79); the
`target_dimensions` dict becomes the two fields `target_width`,
`target_height`. -/
structure UpscalingStrategy where
  can_upscale : Bool
  product_type : ProductType
  current_pixels : Nat
  recommended_transformation : String
  target_width : Nat
  target_height : Nat
  quality_level : String
  estimated_processing_time : Nat
deriving DecidableEq, Repr

/-- One row of the per-category `transformations` table
(src/main.py:162-178). -/
structure TransformationConfig where
  upscale : String
  enhance : String
  width : Nat
  height : Nat
deriving DecidableEq, Repr

/-- The `transformations` table (src/main.py:162-178). -/
def transformations : ProductType → TransformationConfig
  | ProductType.APPAREL =>
      { upscale := "e_upscale,w_2500,h_2500,c_fit,q_100,f_png",
        enhance := "e_enhance,w_2500,h_2500,c_fit,q_100,f_png",
        width := 2500, height := 2500 }
  | ProductType.POSTER =>
      { upscale := "e_upscale,w_3000,h_3000,c_fit,q_100,f_png",
        enhance := "e_enhance,w_3000,h_3000,c_fit,q_100,f_png",
        width := 3000, height := 3000 }
  | ProductType.CANVAS =>
      { upscale := "e_upscale,w_4000,h_4000,c_fit,q_100,f_png",
        enhance := "e_enhance,w_4000,h_4000,c_fit,q_100,f_png",
        width := 4000, height := 4000 }

/-- The pure core of `create_upscaling_strategy` (src/main.py:158-199):
given the resolved product type and the current image dimensions, decide
upscale-vs-enhance and assemble the strategy. -/
def create_upscaling_strategy_core (product_type : ProductType)
    (width height : Nat) : UpscalingStrategy :=
  let current_pixels := width * height
  let can_upscale : Bool := current_pixels < UPSCALE_PIXEL_LIMIT
  let config := transformations product_type
  let choice : String × String × Nat :=
    if can_upscale then (config.upscale, "upscaled_4x", 60)
    else (config.enhance, "enhanced", 30)
  { can_upscale := can_upscale,
    product_type := product_type,
    current_pixels := current_pixels,
    recommended_transformation := choice.1,
    target_width := config.width,
    target_height := config.height,
    quality_level := choice.2.1,
    estimated_processing_time := choice.2.2 }

/-- `ArtworkRequest` dataclass (src/main.py:88-96).  The two title fields
are the classifier's input and are kept as character lists; the variant
title may be absent. -/
structure ArtworkRequest where
  request_id : String
  shopify_order_id : String
  product_title : List Char
  variant_title : Option (List Char)
  artwork_url : String
  pet_name : String
  status : String

/-- The dictionary returned by `cloudinary.uploader.upload`
(src/main.py:208-220), i.e. the `production_result` the validator reads. -/
structure ProductionResult where
  width : Option Nat
  height : Option Nat
  bytes : Option Nat
  format : Option (List Char)
  secure_url : Option String
  asset_id : Option String
deriving DecidableEq, Repr

/-- The external world as seen by one job: the cloudinary metadata lookup
(`none` = the lookup raised) and the transformation upload, keyed by the
request id (`Except.error` = the provider call raised). -/
structure Env where
  resource : String → Option ResourceInfo
  upload : String → Except String ProductionResult

/-- `create_upscaling_strategy` (src/main.py:149-199): classify the titles,
fetch the image metadata (`public_id = request_id`, src/main.py:155), then
run the pure core on the resulting dimensions. -/
def create_upscaling_strategy (env : Env) (artwork : ArtworkRequest) :
    UpscalingStrategy :=
  let product_type :=
    determine_product_type artwork.product_title artwork.variant_title
  let image_info := get_image_info (env.resource artwork.request_id)
  create_upscaling_strategy_core product_type image_info.width image_info.height

/-- The `min_dimension` selection inside `validate_production_image`
(src/main.py:237-238). -/
def min_dimension (strategy : UpscalingStrategy) : Nat :=
  if strategy.product_type = ProductType.POSTER then MIN_DIMENSION_POSTER
  else MIN_DIMENSION_APPAREL

/-- The issue strings appended by `validate_production_image`
(src/main.py:241,246,251), with their interpolated values. -/
inductive Issue where
  | resolutionTooLow (width height min_dim : Nat)
  | fileTooLarge (file_size_mb max_mb : ℚ)
  | unexpectedFormat (format : List Char)
deriving DecidableEq, Repr

/-- The `metrics` dict of a `ValidationResult` (src/main.py:259-265). -/
structure Metrics where
  width : Nat
  height : Nat
  format : List Char
  file_size_mb : ℚ
  url : Option String
deriving DecidableEq, Repr

/-- `ValidationResult` dataclass (src/main.py:81-86). -/
structure ValidationResult where
  is_valid : Bool
  issues : List Issue
  metrics : Metrics
  quality_score : ℚ
deriving DecidableEq, Repr

/-- `min(width / target_width, height / target_height)`
(src/main.py:279). -/
def resolution_ratio (production_result : ProductionResult)
    (strategy : UpscalingStrategy) : ℚ :=
  min ((production_result.width.getD 0 : ℚ) / strategy.target_width)
      ((production_result.height.getD 0 : ℚ) / strategy.target_height)

/-- `_calculate_quality_score` (src/main.py:269-295): start from 100,
subtract the resolution, file-size and format penalties in order, floor
at 0. -/
def calculate_quality_score (production_result : ProductionResult)
    (strategy : UpscalingStrategy) : ℚ :=
  let ratio := resolution_ratio production_result strategy
  let score1 : ℚ :=
    if ratio < 0.8 then 100 - 30
    else if ratio < 0.9 then 100 - 15
    else 100
  let file_size_mb : ℚ := (production_result.bytes.getD 0 : ℚ) / (1024 * 1024)
  let score2 : ℚ :=
    if file_size_mb > MAX_FILE_SIZE_MB * 0.8 then score1 - 10 else score1
  let format_type := (production_result.format.getD []).map Char.toLower
  let score3 : ℚ := if format_type ≠ "png".toList then score2 - 5 else score2
  if score3 < 0 then 0 else score3

/-- `validate_production_image` (src/main.py:229-267). -/
def validate_production_image (production_result : ProductionResult)
    (strategy : UpscalingStrategy) : ValidationResult :=
  let width := production_result.width.getD 0
  let height := production_result.height.getD 0
  let min_dim := min_dimension strategy
  let resolution_issues : List Issue :=
    if width < min_dim ∨ height < min_dim then
      [Issue.resolutionTooLow width height min_dim]
    else []
  let file_size_mb : ℚ := (production_result.bytes.getD 0 : ℚ) / (1024 * 1024)
  let size_issues : List Issue :=
    if file_size_mb > MAX_FILE_SIZE_MB then
      [Issue.fileTooLarge file_size_mb MAX_FILE_SIZE_MB]
    else []
  let format_type := (production_result.format.getD []).map Char.toLower
  let format_issues : List Issue :=
    if format_type ∈ ["png".toList, "jpg".toList, "jpeg".toList] then []
    else [Issue.unexpectedFormat format_type]
  let issues := resolution_issues ++ size_issues ++ format_issues
  { is_valid := issues.isEmpty,
    issues := issues,
    metrics :=
      { width := width, height := height, format := format_type,
        file_size_mb := file_size_mb, url := production_result.secure_url },
    quality_score := calculate_quality_score production_result strategy }

/-- A `production_result` with every absent field replaced by the default
the validator supplies (`0` dimensions and bytes, `''` format). -/
def with_defaults (production_result : ProductionResult) : ProductionResult :=
  { width := some (production_result.width.getD 0),
    height := some (production_result.height.getD 0),
    bytes := some (production_result.bytes.getD 0),
    format := some (production_result.format.getD []),
    secure_url := production_result.secure_url,
    asset_id := production_result.asset_id }

/-- The per-job result dict built by `process_artwork_upscaling`
(src/main.py:325-331). -/
structure ResultRecord where
  request_id : String
  status : UpscalingStatus
  production_url : Option String
  strategy : UpscalingStrategy
  validation : ValidationResult

/-- Observable behaviour of one run of `process_artwork_upscaling`:
the status updates written to the database (with the optional error
message), the returned dict or the re-raised exception, and whether
`_notify_gelato` was invoked. -/
structure JobRun where
  recorded_statuses : List (UpscalingStatus × Option String)
  outcome : Except String ResultRecord
  notified_gelato : Bool

/-- `process_artwork_upscaling` (src/main.py:297-342): set `processing`,
build the strategy (which never raises: `get_image_info` catches its own
errors), call the provider, validate, record the final status, and notify
the webhook only on `completed`; a provider exception records `failed`
with the error message and re-raises. -/
def process_artwork_upscaling (env : Env) (artwork : ArtworkRequest) : JobRun :=
  let strategy := create_upscaling_strategy env artwork
  match env.upload artwork.request_id with
  | Except.error e =>
      { recorded_statuses :=
          [(UpscalingStatus.PROCESSING, none), (UpscalingStatus.FAILED, some e)],
        outcome := Except.error e,
        notified_gelato := false }
  | Except.ok production_result =>
      let validation := validate_production_image production_result strategy
      let final_status :=
        if validation.is_valid then UpscalingStatus.COMPLETED
        else UpscalingStatus.QUALITY_ISSUES
      { recorded_statuses :=
          [(UpscalingStatus.PROCESSING, none), (final_status, none)],
        outcome := Except.ok
          { request_id := artwork.request_id,
            status := final_status,
            production_url := production_result.secure_url,
            strategy := strategy,
            validation := validation },
        notified_gelato := final_status = UpscalingStatus.COMPLETED }

/-- One slot of the batch response (src/main.py:458-469): either the
per-job result dict or the `{'request_id', 'status': 'failed', 'error'}`
dict built in the per-item exception handler. -/
inductive BatchEntry where
  | ok (record : ResultRecord)
  | failed (request_id : String) (error : String)

/-- The body of the per-item loop of `upscale_batch_artworks`
(src/main.py:459-469). -/
def batch_entry (env : Env) (artwork : ArtworkRequest) : BatchEntry :=
  match (process_artwork_upscaling env artwork).outcome with
  | Except.ok record => BatchEntry.ok record
  | Except.error e => BatchEntry.failed artwork.request_id e

/-- `upscale_batch_artworks` (src/main.py:451-482): process the submitted
jobs in order, isolating each job's failure in its own slot. -/
def upscale_batch_artworks (env : Env) (artworks : List ArtworkRequest) :
    List BatchEntry :=
  artworks.map (batch_entry env)

/-- A sample inbound job used to exercise the pipeline. -/
def sample_artwork (id : String) : ArtworkRequest :=
  { request_id := id, shopify_order_id := "order-1",
    product_title := "Cat Hoodie".toList, variant_title := some "XL".toList,
    artwork_url := "http://example.com/art.png", pet_name := "Cat",
    status := "pending" }

/-- A provider response meeting every quality threshold. -/
def good_result : ProductionResult :=
  { width := some 2500, height := some 2500, bytes := some 0,
    format := some "png".toList, secure_url := some "http://cdn/x.png",
    asset_id := some "asset-1" }

/-- A provider response whose resolution is below every floor. -/
def low_result : ProductionResult :=
  { width := some 100, height := some 100, bytes := some 0,
    format := some "png".toList, secure_url := some "http://cdn/y.png",
    asset_id := some "asset-2" }

/-- A sample environment: the metadata lookup raises for every id, the
provider call raises for request id "r2", returns a low-resolution asset
for "r0" and a good asset otherwise. -/
def sample_env : Env :=
  { resource := fun _ => none,
    upload := fun id =>
      if id = "r2" then Except.error "boom"
      else if id = "r0" then Except.ok low_result
      else Except.ok good_result }

/-- A metadata response that omits only the width. -/
def omitted_width_resource : ResourceInfo :=
  { width := none, height := some 5000, bytes := some 0,
    format := some "png".toList, public_id := none, secure_url := none }

end Upscale

namespace Upscale

/-- Helper: lower-casing the string "png" is the identity. -/
theorem map_toLower_png : "png".toList.map Char.toLower = "png".toList := by decide

/-- Helper: "PNG" lower-cases to "png". -/
theorem map_toLower_PNG : "PNG".toList.map Char.toLower = "png".toList := by decide

/-- Helper: "png" is in the validator's format whitelist. -/
theorem png_mem_whitelist :
    "png".toList ∈ ["png".toList, "jpg".toList, "jpeg".toList] := by decide

/-- Helper: closed form of the quality score.  The floor at 0 never binds,
since the three penalties sum to at most 45. -/
theorem calculate_quality_score_eq (r : ProductionResult) (s : UpscalingStrategy) :
    calculate_quality_score r s =
      (if resolution_ratio r s < 0.8 then (70 : ℚ)
       else if resolution_ratio r s < 0.9 then 85 else 100)
      - (if ((r.bytes.getD 0 : ℚ) / (1024 * 1024)) > 40 then (10 : ℚ) else 0)
      - (if (r.format.getD []).map Char.toLower ≠ "png".toList then (5 : ℚ) else 0) := by
  simp only [calculate_quality_score, MAX_FILE_SIZE_MB]
  norm_num
  split_ifs <;> linarith

/-- Claim C1: for every product category and current dimensions, the strategy
selector sets can_upscale exactly when width * height < 4,200,000; when it
can upscale it picks the category's upscale directive with quality tier
"upscaled_4x" and 60 s estimated duration, otherwise the category's enhance
directive with tier "enhanced" and 30 s. -/
theorem C1_strategy_selector (pt : ProductType) (w h : Nat) :
    ((create_upscaling_strategy_core pt w h).can_upscale = true ↔ w * h < 4200000)
    ∧ (create_upscaling_strategy_core pt w h).current_pixels = w * h
    ∧ (w * h < 4200000 →
        (create_upscaling_strategy_core pt w h).recommended_transformation
            = (transformations pt).upscale
        ∧ (create_upscaling_strategy_core pt w h).quality_level = "upscaled_4x"
        ∧ (create_upscaling_strategy_core pt w h).estimated_processing_time = 60)
    ∧ (¬ w * h < 4200000 →
        (create_upscaling_strategy_core pt w h).recommended_transformation
            = (transformations pt).enhance
        ∧ (create_upscaling_strategy_core pt w h).quality_level = "enhanced"
        ∧ (create_upscaling_strategy_core pt w h).estimated_processing_time = 30) := by
  by_cases hc : w * h < 4200000 <;>
    simp [create_upscaling_strategy_core, UPSCALE_PIXEL_LIMIT, hc]

/-- Claim C1, witness: at 2000×2000 (4.0 MP) the selector upscales, at
3500×3500 (12.25 MP) it enhances. -/
theorem C1_strategy_selector_witness :
    (2000 * 2000 < 4200000
      ∧ (create_upscaling_strategy_core ProductType.APPAREL 2000 2000).quality_level
          = "upscaled_4x"
      ∧ (create_upscaling_strategy_core ProductType.APPAREL 2000 2000).estimated_processing_time
          = 60)
    ∧ (¬ 3500 * 3500 < 4200000
      ∧ (create_upscaling_strategy_core ProductType.POSTER 3500 3500).quality_level
          = "enhanced") :=
  ⟨⟨by norm_num,
    ((C1_strategy_selector ProductType.APPAREL 2000 2000).2.2.1 (by norm_num)).2.1,
    ((C1_strategy_selector ProductType.APPAREL 2000 2000).2.2.1 (by norm_num)).2.2⟩,
   by norm_num,
   ((C1_strategy_selector ProductType.POSTER 3500 3500).2.2.2 (by norm_num)).2.1⟩

/-- Claim C2: classification returns apparel exactly when an apparel keyword
is a substring of the lower-cased title concatenation (even if a canvas
keyword is also present), canvas exactly when no apparel keyword but a
canvas keyword matches, and the default poster exactly when nothing
matches; being a total Lean function it never fails. -/
theorem C2_determine_product_type (p : List Char) (v : Option (List Char)) :
    (determine_product_type p v = ProductType.APPAREL ↔
      ∃ k ∈ apparel_keywords, k <:+: full_title p v)
    ∧ (determine_product_type p v = ProductType.CANVAS ↔
      ((¬ ∃ k ∈ apparel_keywords, k <:+: full_title p v)
        ∧ ∃ k ∈ canvas_keywords, k <:+: full_title p v))
    ∧ (determine_product_type p v = ProductType.POSTER ↔
      ((¬ ∃ k ∈ apparel_keywords, k <:+: full_title p v)
        ∧ ¬ ∃ k ∈ canvas_keywords, k <:+: full_title p v)) := by
  simp only [determine_product_type, List.any_eq_true, decide_eq_true_eq]
  by_cases hA : ∃ k ∈ apparel_keywords, k <:+: full_title p v
  · simp [hA]
  · by_cases hC : ∃ k ∈ canvas_keywords, k <:+: full_title p v <;> simp [hA, hC]

/-- Claim C2, witness: "Canvas Hoodie" is apparel although a canvas keyword
is present, "Dog Canvas" is canvas, "Nice Dog" falls back to poster. -/
theorem C2_determine_product_type_witness :
    determine_product_type "Canvas Hoodie".toList none = ProductType.APPAREL
    ∧ determine_product_type "Dog Canvas".toList (some "50x70".toList)
        = ProductType.CANVAS
    ∧ determine_product_type "Nice Dog".toList none = ProductType.POSTER :=
  ⟨(C2_determine_product_type "Canvas Hoodie".toList none).1.mpr
      ⟨"hoodie".toList, by decide, by decide⟩,
   (C2_determine_product_type "Dog Canvas".toList (some "50x70".toList)).2.1.mpr
      ⟨by decide, "canvas".toList, by decide, by decide⟩,
   (C2_determine_product_type "Nice Dog".toList none).2.2.mpr ⟨by decide, by decide⟩⟩

/-- Claim C3, counterexample: a result matching the apparel strategy's
target dimensions exactly, format "png", whose 45 MB byte size is under the
50 MB maximum, is valid but scores 90, not 100 — the 10-point penalty fires
as soon as the size exceeds 80 % of the maximum. -/
theorem C3_roundtrip_counterexample :
    (some (create_upscaling_strategy_core ProductType.APPAREL 2000 2000).target_width
        = some (2500 : Nat)
      ∧ some (create_upscaling_strategy_core ProductType.APPAREL 2000 2000).target_height
        = some (2500 : Nat))
    ∧ ((47185920 : ℚ) / (1024 * 1024) < MAX_FILE_SIZE_MB)
    ∧ (validate_production_image
        { width := some 2500, height := some 2500, bytes := some 47185920,
          format := some "png".toList, secure_url := none, asset_id := none }
        (create_upscaling_strategy_core ProductType.APPAREL 2000 2000)).is_valid = true
    ∧ (validate_production_image
        { width := some 2500, height := some 2500, bytes := some 47185920,
          format := some "png".toList, secure_url := none, asset_id := none }
        (create_upscaling_strategy_core ProductType.APPAREL 2000 2000)).quality_score
      = 90 := by
  refine ⟨⟨by decide, by decide⟩, by norm_num [MAX_FILE_SIZE_MB], ?_, ?_⟩ <;>
    simp only [validate_production_image, calculate_quality_score, resolution_ratio,
      create_upscaling_strategy_core, transformations, UPSCALE_PIXEL_LIMIT,
      min_dimension, MIN_DIMENSION_APPAREL, MIN_DIMENSION_POSTER, MAX_FILE_SIZE_MB,
      map_toLower_png, png_mem_whitelist] <;>
    norm_num [map_toLower_png] <;> decide

/-- Claim C3, amended: for every selector-produced strategy, a result whose
dimensions equal the strategy's targets, whose format is "png" and whose
byte size is at most 80 % of the maximum (41,943,040 bytes) is valid with
quality score 100. -/
theorem C3_roundtrip_amended (pt : ProductType) (w h bytes : Nat)
    (hbytes : bytes ≤ 41943040) :
    (validate_production_image
        { width := some (create_upscaling_strategy_core pt w h).target_width,
          height := some (create_upscaling_strategy_core pt w h).target_height,
          bytes := some bytes, format := some "png".toList,
          secure_url := none, asset_id := none }
        (create_upscaling_strategy_core pt w h)).is_valid = true
    ∧ (validate_production_image
        { width := some (create_upscaling_strategy_core pt w h).target_width,
          height := some (create_upscaling_strategy_core pt w h).target_height,
          bytes := some bytes, format := some "png".toList,
          secure_url := none, asset_id := none }
        (create_upscaling_strategy_core pt w h)).quality_score = 100 := by
  have hcast : (bytes : ℚ) ≤ 41943040 := by exact_mod_cast hbytes
  have h40 : ¬ ((bytes : ℚ) / 1048576 > 40) := by
    rw [not_lt, div_le_iff₀ (by norm_num : (0:ℚ) < 1048576)]
    linarith
  have h50 : ¬ ((bytes : ℚ) / 1048576 > 50) := by
    rw [not_lt, div_le_iff₀ (by norm_num : (0:ℚ) < 1048576)]
    linarith
  cases pt <;>
    simp only [validate_production_image, calculate_quality_score, resolution_ratio,
      create_upscaling_strategy_core, transformations, UPSCALE_PIXEL_LIMIT,
      min_dimension, MIN_DIMENSION_APPAREL, MIN_DIMENSION_POSTER,
      MAX_FILE_SIZE_MB] <;>
    norm_num [map_toLower_png, h40, h50] <;> decide

/-- Claim C3, witness for the amended claim: the poster round-trip at 0
bytes is valid and scores 100. -/
theorem C3_roundtrip_amended_witness :
    (0 : Nat) ≤ 41943040
    ∧ (validate_production_image
        { width := some (create_upscaling_strategy_core ProductType.POSTER 1000 1000).target_width,
          height := some (create_upscaling_strategy_core ProductType.POSTER 1000 1000).target_height,
          bytes := some 0, format := some "png".toList,
          secure_url := none, asset_id := none }
        (create_upscaling_strategy_core ProductType.POSTER 1000 1000)).is_valid = true
    ∧ (validate_production_image
        { width := some (create_upscaling_strategy_core ProductType.POSTER 1000 1000).target_width,
          height := some (create_upscaling_strategy_core ProductType.POSTER 1000 1000).target_height,
          bytes := some 0, format := some "png".toList,
          secure_url := none, asset_id := none }
        (create_upscaling_strategy_core ProductType.POSTER 1000 1000)).quality_score = 100 :=
  ⟨by norm_num,
   (C3_roundtrip_amended ProductType.POSTER 1000 1000 0 (by norm_num)).1,
   (C3_roundtrip_amended ProductType.POSTER 1000 1000 0 (by norm_num)).2⟩

end Upscale

namespace Upscale

/-- Claim C4, counterexample: a result whose format string is "PNG" — not
exactly "png" — still scores 100: the code lower-cases the format before the
comparison, so a case-insensitive match does avoid the 5-point penalty,
contradicting the claim that only the exact string "png" avoids it. -/
theorem C4_format_penalty_counterexample :
    (some "PNG".toList ≠ some "png".toList)
    ∧ calculate_quality_score
        { width := some 2500, height := some 2500, bytes := some 0,
          format := some "PNG".toList, secure_url := none, asset_id := none }
        (create_upscaling_strategy_core ProductType.APPAREL 2000 2000) = 100 := by
  constructor
  · decide
  · rw [calculate_quality_score_eq]
    norm_num [resolution_ratio, create_upscaling_strategy_core, transformations,
      UPSCALE_PIXEL_LIMIT, map_toLower_PNG]
    decide

/-- Claim C4, amended: the 5-point format penalty is subtracted exactly when
the lower-cased format string differs from "png"; a case-insensitive match
such as "PNG" avoids the penalty. -/
theorem C4_format_penalty_amended (r : ProductionResult) (s : UpscalingStrategy) :
    ((r.format.getD []).map Char.toLower = "png".toList →
      calculate_quality_score r s
        = calculate_quality_score { r with format := some "png".toList } s)
    ∧ ((r.format.getD []).map Char.toLower ≠ "png".toList →
      calculate_quality_score r s
        = calculate_quality_score { r with format := some "png".toList } s - 5) := by
  have hratio : resolution_ratio { r with format := some "png".toList } s
      = resolution_ratio r s := rfl
  have hbytes : ({ r with format := some "png".toList } : ProductionResult).bytes
      = r.bytes := rfl
  have hfmt : ({ r with format := some "png".toList } : ProductionResult).format.getD []
      = "png".toList := rfl
  refine ⟨fun hf => ?_, fun hf => ?_⟩ <;>
    rw [calculate_quality_score_eq, calculate_quality_score_eq, hratio, hbytes, hfmt,
      map_toLower_png]
  · simp [show List.map Char.toLower (r.format.getD []) = ['p', 'n', 'g'] from by
      simpa using hf]
  · simp [show ¬ List.map Char.toLower (r.format.getD []) = ['p', 'n', 'g'] from by
      simpa using hf]

/-- Claim C4, witness for the amended claim: a "JPG" result scores exactly 5
below the same result with format "png". -/
theorem C4_format_penalty_amended_witness :
    calculate_quality_score
      { width := some 2500, height := some 2500, bytes := some 0,
        format := some "JPG".toList, secure_url := none, asset_id := none }
      (create_upscaling_strategy_core ProductType.APPAREL 2000 2000)
    = calculate_quality_score
      { width := some 2500, height := some 2500, bytes := some 0,
        format := some "png".toList, secure_url := none, asset_id := none }
      (create_upscaling_strategy_core ProductType.APPAREL 2000 2000) - 5 :=
  (C4_format_penalty_amended
    { width := some 2500, height := some 2500, bytes := some 0,
      format := some "JPG".toList, secure_url := none, asset_id := none }
    (create_upscaling_strategy_core ProductType.APPAREL 2000 2000)).2 (by decide)

/-- Claim C5, counterexample: a result with an absent byte count but good
dimensions and format is fully valid with an empty issue list — the missing
byte count defaults to 0 and passes the size ceiling, so absent data does
not always surface as an issue. -/
theorem C5_validator_counterexample :
    (({ width := some 5000, height := some 5000, bytes := none,
        format := some "png".toList, secure_url := none, asset_id := none
        : ProductionResult }).bytes = none)
    ∧ (validate_production_image
        { width := some 5000, height := some 5000, bytes := none,
          format := some "png".toList, secure_url := none, asset_id := none }
        (create_upscaling_strategy_core ProductType.APPAREL 2000 2000)).issues = []
    ∧ (validate_production_image
        { width := some 5000, height := some 5000, bytes := none,
          format := some "png".toList, secure_url := none, asset_id := none }
        (create_upscaling_strategy_core ProductType.APPAREL 2000 2000)).is_valid
      = true := by
  refine ⟨rfl, ?_, ?_⟩ <;>
    simp only [validate_production_image, create_upscaling_strategy_core,
      transformations, UPSCALE_PIXEL_LIMIT, min_dimension, MIN_DIMENSION_APPAREL,
      MIN_DIMENSION_POSTER, MAX_FILE_SIZE_MB] <;>
    norm_num [map_toLower_png] <;> decide

/-- Claim C5, amended: the validator is total (a Lean function), is_valid
holds exactly when the issue list is empty, validating a result equals
validating it with every absent field replaced by its default (0 dimensions
and bytes, empty format), absent dimensions surface as resolution issues and
an absent format as a format issue, while an absent byte count counts as
0 MB and never produces a size issue. -/
theorem C5_validator_amended (r : ProductionResult) (s : UpscalingStrategy) :
    ((validate_production_image r s).is_valid = true
      ↔ (validate_production_image r s).issues = [])
    ∧ validate_production_image r s = validate_production_image (with_defaults r) s
    ∧ (r.width = none →
        Issue.resolutionTooLow 0 (r.height.getD 0) (min_dimension s)
          ∈ (validate_production_image r s).issues)
    ∧ (r.height = none →
        Issue.resolutionTooLow (r.width.getD 0) 0 (min_dimension s)
          ∈ (validate_production_image r s).issues)
    ∧ (r.format = none →
        Issue.unexpectedFormat [] ∈ (validate_production_image r s).issues)
    ∧ (r.bytes = none →
        ∀ q m, Issue.fileTooLarge q m ∉ (validate_production_image r s).issues) := by
  have hmin : 0 < min_dimension s := by
    unfold min_dimension MIN_DIMENSION_APPAREL MIN_DIMENSION_POSTER
    split_ifs <;> norm_num
  obtain ⟨w, h, b, f, u, a⟩ := r
  refine ⟨?_, ?_, ?_, ?_, ?_, ?_⟩
  · simp only [validate_production_image]
    exact List.isEmpty_iff
  · cases w <;> cases h <;> cases b <;> cases f <;> rfl
  · intro hw
    cases hw
    simp [validate_production_image, hmin]
  · intro hh
    cases hh
    simp [validate_production_image, hmin]
  · intro hf
    cases hf
    simp only [validate_production_image]
    split_ifs <;> simp_all
  · intro hb q m
    cases hb
    simp only [validate_production_image]
    split_ifs <;> simp_all <;> norm_num [MAX_FILE_SIZE_MB] at *

/-- Claim C5, witness for the amended claim: on the all-absent result the
validator reports the 0×0 resolution issue and no size issue. -/
theorem C5_validator_amended_witness :
    Issue.resolutionTooLow 0 0
        (min_dimension (create_upscaling_strategy_core ProductType.APPAREL 2000 2000))
      ∈ (validate_production_image
          { width := none, height := none, bytes := none, format := none,
            secure_url := none, asset_id := none }
          (create_upscaling_strategy_core ProductType.APPAREL 2000 2000)).issues
    ∧ (∀ q m, Issue.fileTooLarge q m
        ∉ (validate_production_image
          { width := none, height := none, bytes := none, format := none,
            secure_url := none, asset_id := none }
          (create_upscaling_strategy_core ProductType.APPAREL 2000 2000)).issues) :=
  ⟨(C5_validator_amended
      { width := none, height := none, bytes := none, format := none,
        secure_url := none, asset_id := none }
      (create_upscaling_strategy_core ProductType.APPAREL 2000 2000)).2.2.1 rfl,
   (C5_validator_amended
      { width := none, height := none, bytes := none, format := none,
        secure_url := none, asset_id := none }
      (create_upscaling_strategy_core ProductType.APPAREL 2000 2000)).2.2.2.2.2 rfl⟩

/-- Claim C6: for every result and strategy the quality score lies in
[0, 100], and with the byte size and format held fixed the score is
monotone in the resolution ratio (non-increasing as the ratio decreases). -/
theorem C6_quality_score_bounds_mono (s : UpscalingStrategy)
    (r1 r2 : ProductionResult) :
    (0 ≤ calculate_quality_score r1 s ∧ calculate_quality_score r1 s ≤ 100)
    ∧ (r1.bytes = r2.bytes → r1.format = r2.format →
        resolution_ratio r1 s ≤ resolution_ratio r2 s →
        calculate_quality_score r1 s ≤ calculate_quality_score r2 s) := by
  constructor
  · rw [calculate_quality_score_eq]
    split_ifs <;> norm_num
  · intro hb hf hr
    rw [calculate_quality_score_eq, calculate_quality_score_eq, hb, hf]
    have hres : (if resolution_ratio r1 s < 0.8 then (70 : ℚ)
        else if resolution_ratio r1 s < 0.9 then 85 else 100)
        ≤ (if resolution_ratio r2 s < 0.8 then (70 : ℚ)
        else if resolution_ratio r2 s < 0.9 then 85 else 100) := by
      split_ifs <;> linarith
    linarith

/-- Claim C6, witness: a 1000×1000 result scores within [0, 100] and no more
than the 2500×2500 result against the same apparel strategy. -/
theorem C6_quality_score_bounds_mono_witness :
    ((0 ≤ calculate_quality_score
        { width := some 1000, height := some 1000, bytes := some 0,
          format := some "png".toList, secure_url := none, asset_id := none }
        (create_upscaling_strategy_core ProductType.APPAREL 2000 2000)
      ∧ calculate_quality_score
        { width := some 1000, height := some 1000, bytes := some 0,
          format := some "png".toList, secure_url := none, asset_id := none }
        (create_upscaling_strategy_core ProductType.APPAREL 2000 2000) ≤ 100)
    ∧ calculate_quality_score
        { width := some 1000, height := some 1000, bytes := some 0,
          format := some "png".toList, secure_url := none, asset_id := none }
        (create_upscaling_strategy_core ProductType.APPAREL 2000 2000)
      ≤ calculate_quality_score
        { width := some 2500, height := some 2500, bytes := some 0,
          format := some "png".toList, secure_url := none, asset_id := none }
        (create_upscaling_strategy_core ProductType.APPAREL 2000 2000)) :=
  ⟨(C6_quality_score_bounds_mono
      (create_upscaling_strategy_core ProductType.APPAREL 2000 2000)
      { width := some 1000, height := some 1000, bytes := some 0,
        format := some "png".toList, secure_url := none, asset_id := none }
      { width := some 2500, height := some 2500, bytes := some 0,
        format := some "png".toList, secure_url := none, asset_id := none }).1,
   (C6_quality_score_bounds_mono
      (create_upscaling_strategy_core ProductType.APPAREL 2000 2000)
      { width := some 1000, height := some 1000, bytes := some 0,
        format := some "png".toList, secure_url := none, asset_id := none }
      { width := some 2500, height := some 2500, bytes := some 0,
        format := some "png".toList, secure_url := none, asset_id := none }).2
     rfl rfl
     (by norm_num [resolution_ratio, create_upscaling_strategy_core,
        transformations, UPSCALE_PIXEL_LIMIT])⟩

end Upscale

namespace Upscale

/-- Claim C7: the validator's resolution issue appears exactly when width or
height falls below the category's minimum dimension; the poster floor is
2000, every other category uses 1500, and the poster floor is strictly
higher. -/
theorem C7_resolution_floor (r : ProductionResult) (s : UpscalingStrategy) :
    (Issue.resolutionTooLow (r.width.getD 0) (r.height.getD 0) (min_dimension s)
        ∈ (validate_production_image r s).issues
      ↔ ¬ (min_dimension s ≤ r.width.getD 0 ∧ min_dimension s ≤ r.height.getD 0))
    ∧ (s.product_type = ProductType.POSTER → min_dimension s = 2000)
    ∧ (s.product_type ≠ ProductType.POSTER → min_dimension s = 1500)
    ∧ MIN_DIMENSION_APPAREL < MIN_DIMENSION_POSTER := by
  refine ⟨?_,
    fun hp => by simp [min_dimension, hp, MIN_DIMENSION_POSTER],
    fun hp => by simp [min_dimension, hp, MIN_DIMENSION_APPAREL],
    by norm_num [MIN_DIMENSION_APPAREL, MIN_DIMENSION_POSTER]⟩
  simp only [validate_production_image]
  split_ifs <;> simp_all <;> omega

/-- Claim C7, witness: a 1000×1000 result violates the apparel floor of 1500
and draws the resolution issue; the poster strategy's floor is 2000. -/
theorem C7_resolution_floor_witness :
    (¬ (min_dimension (create_upscaling_strategy_core ProductType.APPAREL 2000 2000) ≤ 1000
        ∧ min_dimension (create_upscaling_strategy_core ProductType.APPAREL 2000 2000) ≤ 1000))
    ∧ Issue.resolutionTooLow 1000 1000
        (min_dimension (create_upscaling_strategy_core ProductType.APPAREL 2000 2000))
      ∈ (validate_production_image
          { width := some 1000, height := some 1000, bytes := some 0,
            format := some "png".toList, secure_url := none, asset_id := none }
          (create_upscaling_strategy_core ProductType.APPAREL 2000 2000)).issues
    ∧ min_dimension (create_upscaling_strategy_core ProductType.POSTER 100 100) = 2000 :=
  ⟨by decide,
   (C7_resolution_floor
      { width := some 1000, height := some 1000, bytes := some 0,
        format := some "png".toList, secure_url := none, asset_id := none }
      (create_upscaling_strategy_core ProductType.APPAREL 2000 2000)).1.mpr (by decide),
   (C7_resolution_floor
      { width := some 100, height := some 100, bytes := some 0,
        format := some "png".toList, secure_url := none, asset_id := none }
      (create_upscaling_strategy_core ProductType.POSTER 100 100)).2.1 (by decide)⟩

/-- Claim C8: batch processing returns one slot per submitted job in the
same order (the result list is the elementwise image of the job list), and a
job whose provider call raises fills its own slot with the failed record and
its error string while every other slot is the same function of its own job
alone. -/
theorem C8_batch_isolation (env : Env) (artworks : List ArtworkRequest) :
    ((upscale_batch_artworks env artworks).length = artworks.length)
    ∧ (∀ i, (upscale_batch_artworks env artworks).get? i
        = (artworks.get? i).map (batch_entry env))
    ∧ (∀ i art e, artworks.get? i = some art →
        env.upload art.request_id = Except.error e →
        (upscale_batch_artworks env artworks).get? i
          = some (BatchEntry.failed art.request_id e)) := by
  refine ⟨by simp [upscale_batch_artworks],
    fun i => by simp [upscale_batch_artworks], ?_⟩
  intro i art e hart herr
  rw [show (upscale_batch_artworks env artworks).get? i
      = (artworks.get? i).map (batch_entry env) from by simp [upscale_batch_artworks],
    hart]
  simp [batch_entry, process_artwork_upscaling, herr]

/-- Claim C8, witness: in a batch of three jobs where the middle job's
provider call raises "boom", the result list has three slots, slot 1 is the
failed record, and slots 0 and 2 are their own jobs' results. -/
theorem C8_batch_isolation_witness :
    (upscale_batch_artworks sample_env
        [sample_artwork "r1", sample_artwork "r2", sample_artwork "r3"]).length = 3
    ∧ (upscale_batch_artworks sample_env
        [sample_artwork "r1", sample_artwork "r2", sample_artwork "r3"]).get? 1
      = some (BatchEntry.failed "r2" "boom")
    ∧ (upscale_batch_artworks sample_env
        [sample_artwork "r1", sample_artwork "r2", sample_artwork "r3"]).get? 0
      = some (batch_entry sample_env (sample_artwork "r1"))
    ∧ (upscale_batch_artworks sample_env
        [sample_artwork "r1", sample_artwork "r2", sample_artwork "r3"]).get? 2
      = some (batch_entry sample_env (sample_artwork "r3")) :=
  ⟨(C8_batch_isolation sample_env
      [sample_artwork "r1", sample_artwork "r2", sample_artwork "r3"]).1,
   (C8_batch_isolation sample_env
      [sample_artwork "r1", sample_artwork "r2", sample_artwork "r3"]).2.2 1
      (sample_artwork "r2") "boom" rfl (by simp [sample_env, sample_artwork]),
   (C8_batch_isolation sample_env
      [sample_artwork "r1", sample_artwork "r2", sample_artwork "r3"]).2.1 0,
   (C8_batch_isolation sample_env
      [sample_artwork "r1", sample_artwork "r2", sample_artwork "r3"]).2.1 2⟩

/-- Claim C9: when the transformation succeeds but validation reports
issues, the recorded statuses end in quality_issues and the webhook is not
invoked; conversely the webhook is invoked only when the job's outcome is a
completed record. -/
theorem C9_webhook_gating (env : Env) (artwork : ArtworkRequest)
    (production_result : ProductionResult) :
    ((env.upload artwork.request_id = Except.ok production_result →
      (validate_production_image production_result
          (create_upscaling_strategy env artwork)).is_valid = false →
      (process_artwork_upscaling env artwork).recorded_statuses
          = [(UpscalingStatus.PROCESSING, none),
             (UpscalingStatus.QUALITY_ISSUES, none)]
        ∧ (process_artwork_upscaling env artwork).notified_gelato = false))
    ∧ ((process_artwork_upscaling env artwork).notified_gelato = true →
        ∃ record, (process_artwork_upscaling env artwork).outcome
            = Except.ok record
          ∧ record.status = UpscalingStatus.COMPLETED) := by
  constructor
  · intro hup hval
    constructor <;> simp [process_artwork_upscaling, hup, hval]
  · intro hnot
    unfold process_artwork_upscaling at hnot ⊢
    cases hu : env.upload artwork.request_id with
    | error e =>
      rw [hu] at hnot
      simp at hnot
    | ok pr =>
      rw [hu] at hnot
      by_cases hv : (validate_production_image pr
          (create_upscaling_strategy env artwork)).is_valid = true
      · exact ⟨_, rfl, by simp [hv]⟩
      · simp [hv] at hnot

/-- Claim C9, witness: the job whose provider returns a low-resolution asset
records quality_issues without notifying the webhook, and the job whose
asset validates records a completed outcome (the only case that notifies). -/
theorem C9_webhook_gating_witness :
    ((process_artwork_upscaling sample_env (sample_artwork "r0")).recorded_statuses
        = [(UpscalingStatus.PROCESSING, none), (UpscalingStatus.QUALITY_ISSUES, none)]
      ∧ (process_artwork_upscaling sample_env (sample_artwork "r0")).notified_gelato
        = false)
    ∧ (∃ record,
        (process_artwork_upscaling sample_env (sample_artwork "r1")).outcome
          = Except.ok record
        ∧ record.status = UpscalingStatus.COMPLETED) := by
  have hstrat0 : create_upscaling_strategy sample_env (sample_artwork "r0")
      = create_upscaling_strategy_core ProductType.APPAREL 1024 1024 := by decide
  have hv0 : (validate_production_image low_result
      (create_upscaling_strategy sample_env (sample_artwork "r0"))).is_valid
      = false := by
    rw [hstrat0]
    simp only [validate_production_image, low_result, create_upscaling_strategy_core,
      transformations, UPSCALE_PIXEL_LIMIT, min_dimension, MIN_DIMENSION_APPAREL,
      MIN_DIMENSION_POSTER, MAX_FILE_SIZE_MB]
    norm_num
    decide
  have hstrat1 : create_upscaling_strategy sample_env (sample_artwork "r1")
      = create_upscaling_strategy_core ProductType.APPAREL 1024 1024 := by decide
  have hv1 : (validate_production_image good_result
      (create_upscaling_strategy sample_env (sample_artwork "r1"))).is_valid
      = true := by
    rw [hstrat1]
    simp only [validate_production_image, good_result, create_upscaling_strategy_core,
      transformations, UPSCALE_PIXEL_LIMIT, min_dimension, MIN_DIMENSION_APPAREL,
      MIN_DIMENSION_POSTER, MAX_FILE_SIZE_MB]
    norm_num [map_toLower_png]
    decide
  have hup1 : sample_env.upload (sample_artwork "r1").request_id
      = Except.ok good_result := rfl
  have hn1 : (process_artwork_upscaling sample_env (sample_artwork "r1")).notified_gelato
      = true := by
    simp [process_artwork_upscaling, hup1, hv1]
  exact ⟨(C9_webhook_gating sample_env (sample_artwork "r0") low_result).1 rfl hv0,
    (C9_webhook_gating sample_env (sample_artwork "r1") good_result).2 hn1⟩

/-- Claim C10, counterexample: a metadata response that omits only the width
(height 5000) is not replaced by the 1024×1024 default pair — only the width
defaults to 1024 — and the resulting 1024×5000 = 5,120,000 pixels exceed the
limit, so can_upscale is false in this fallback case, contradicting the
claim that it is always true. -/
theorem C10_metadata_fallback_counterexample :
    omitted_width_resource.width = none
    ∧ (get_image_info (some omitted_width_resource)).width = 1024
    ∧ (get_image_info (some omitted_width_resource)).height = 5000
    ∧ (create_upscaling_strategy_core ProductType.POSTER
        (get_image_info (some omitted_width_resource)).width
        (get_image_info (some omitted_width_resource)).height).can_upscale = false := by
  refine ⟨rfl, rfl, rfl, ?_⟩
  norm_num [create_upscaling_strategy_core, get_image_info, UPSCALE_PIXEL_LIMIT,
    omitted_width_resource]

/-- Claim C10, amended: when the metadata lookup fails the defaults are
1024×1024, "png", 0 bytes, giving 1,048,576 pixels and can_upscale true; on
a successful lookup each dimension defaults to 1024 independently, so the
1024×1024 fallback (with can_upscale true) arises when both are omitted;
strategy creation itself never fails. -/
theorem C10_metadata_fallback_amended (r : ResourceInfo) (pt : ProductType) :
    (get_image_info none
      = { width := 1024, height := 1024, format := "png".toList, bytes := 0,
          public_id := none, secure_url := none })
    ∧ (create_upscaling_strategy_core pt (get_image_info none).width
        (get_image_info none).height).current_pixels = 1048576
    ∧ (create_upscaling_strategy_core pt (get_image_info none).width
        (get_image_info none).height).can_upscale = true
    ∧ (get_image_info (some r)).width = r.width.getD 1024
    ∧ (get_image_info (some r)).height = r.height.getD 1024
    ∧ (r.width = none → r.height = none →
        (get_image_info (some r)).width = 1024
        ∧ (get_image_info (some r)).height = 1024
        ∧ (create_upscaling_strategy_core pt (get_image_info (some r)).width
            (get_image_info (some r)).height).can_upscale = true) := by
  refine ⟨rfl,
    by simp [create_upscaling_strategy_core, get_image_info],
    by simp [create_upscaling_strategy_core, get_image_info, UPSCALE_PIXEL_LIMIT],
    rfl, rfl, ?_⟩
  intro hw hh
  have h1 : (get_image_info (some r)).width = 1024 := by simp [get_image_info, hw]
  have h2 : (get_image_info (some r)).height = 1024 := by simp [get_image_info, hh]
  refine ⟨h1, h2, ?_⟩
  rw [h1, h2]
  simp [create_upscaling_strategy_core, UPSCALE_PIXEL_LIMIT]

/-- Claim C10, witness for the amended claim: on the all-absent metadata
response both dimensions default to 1024 and the strategy can upscale. -/
theorem C10_metadata_fallback_amended_witness :
    (get_image_info none
      = { width := 1024, height := 1024, format := "png".toList, bytes := 0,
          public_id := none, secure_url := none })
    ∧ (get_image_info (some
        { width := none, height := none, bytes := none, format := none,
          public_id := none, secure_url := none })).width = 1024
    ∧ (get_image_info (some
        { width := none, height := none, bytes := none, format := none,
          public_id := none, secure_url := none })).height = 1024
    ∧ (create_upscaling_strategy_core ProductType.POSTER
        (get_image_info (some
          { width := none, height := none, bytes := none, format := none,
            public_id := none, secure_url := none })).width
        (get_image_info (some
          { width := none, height := none, bytes := none, format := none,
            public_id := none, secure_url := none })).height).can_upscale = true :=
  ⟨(C10_metadata_fallback_amended
      { width := none, height := none, bytes := none, format := none,
        public_id := none, secure_url := none } ProductType.POSTER).1,
   ((C10_metadata_fallback_amended
      { width := none, height := none, bytes := none, format := none,
        public_id := none, secure_url := none } ProductType.POSTER).2.2.2.2.2
      rfl rfl).1,
   ((C10_metadata_fallback_amended
      { width := none, height := none, bytes := none, format := none,
        public_id := none, secure_url := none } ProductType.POSTER).2.2.2.2.2
      rfl rfl).2.1,
   ((C10_metadata_fallback_amended
      { width := none, height := none, bytes := none, format := none,
        public_id := none, secure_url := none } ProductType.POSTER).2.2.2.2.2
      rfl rfl).2.2⟩

end Upscale
